import Mathlib

/-!
Shallow embedding and verification of the papersthisweek ingestion-and-retrieval
core: the two exposed operations `update_knowledge_base` and `query_rag` of
`src/mcp_server.py` together with the source adapters and document helpers of
`src/paper_sources.py`.

External effects (the ArXiv loader, the Semantic Scholar HTTP call, the
embedding-provider construction, each FAISS create/add attempt, and the
similarity search) are supplied by an `Env` of oracles whose outcomes are
`Except PyErr` values; the control flow around them is translated line by
line from the Python source.  The fragment splitter and the vector index are
library code (langchain / FAISS) not present in the repository, so they are
modelled from the spec where indicated.
-/

/-- A Python exception value as the retry logic observes it: its string
message plus the class flags that are tested with isinstance
(openai.RateLimitError, openai.APIError). -/
structure PyErr where
  msg : String
  isRateLimitError : Bool := false
  isAPIError : Bool := false
  deriving Repr, DecidableEq

/-- Python str.strip as used on each source id: whitespace removed from both
ends. -/
def pyStrip (s : List Char) : List Char :=
  ((s.dropWhile Char.isWhitespace).reverse.dropWhile Char.isWhitespace).reverse

/-- Python str.lower on a character list. -/
def pyLower (s : List Char) : List Char := s.map Char.toLower

/-- Python s.strip().lower(), applied to each parsed source id
(mcp_server.py:105). -/
def pyStripLower (s : List Char) : List Char := pyLower (pyStrip s)

/-- Python str.lower on a string, by per-character case mapping. -/
def pyLowerS (s : String) : String := String.mk (pyLower s.data)

/-- Python str.upper on a string, by per-character case mapping. -/
def pyUpperS (s : String) : String := String.mk (s.data.map Char.toUpper)

/-- Python sources.split(",") (mcp_server.py:105): split on every comma.
The empty string yields one empty field, so the result is never empty. -/
def splitComma : List Char → List (List Char)
  | [] => [[]]
  | c :: rest =>
    if c = ',' then [] :: splitComma rest
    else
      match splitComma rest with
      | [] => [[c]]
      | h :: t => (c :: h) :: t

/-- Python substring test, needle in hay (callers lowercase first where the
source does). -/
def pyContains (needle hay : String) : Bool :=
  hay.data.tails.any (fun t => needle.data.isPrefixOf t)

/-- The metadata keys this program reads or writes on a document. Absent keys
are none; Python metadata.get with a default is Option.getD. -/
structure Metadata where
  source : Option String := none
  source_name : Option String := none
  title : Option String := none
  authors : Option String := none
  published : Option String := none
  url : Option String := none
  entryId : Option String := none
  paperId : Option String := none
  deriving Repr, DecidableEq

/-- A langchain Document: page_content (as a character list) plus metadata. -/
structure Document where
  content : List Char
  meta : Metadata
  deriving Repr, DecidableEq

/-- A chunk produced by the splitter: text plus the parent document's
metadata. Also the unit stored in the vector index. -/
structure Fragment where
  text : List Char
  meta : Metadata
  deriving Repr, DecidableEq

/-- One item of the Semantic Scholar response data array
(paper_sources.py:66-88); absent JSON keys are none, authors holds the name
field of each author object. -/
structure SSItem where
  title : Option String := none
  authors : List (Option String) := []
  year : Option Int := none
  abstract : Option String := none
  paperId : Option String := none
  url : Option String := none
  deriving Repr

/-- The parts of the requests response that search_semantic_scholar reads:
the status code and the outcome of response.json() (none when the parsed
object has no data key). -/
structure SSResponse where
  status : Nat
  jsonResult : Except PyErr (Option (List SSItem))

/-- The external world as the program observes it: configuration read from
the environment and the outcome of every library or network call.
embedAttempt gives the outcome of the FAISS create/add call at each retry
attempt (none = success); get_embeddings_result is the outcome of
constructing the embeddings client (get_embeddings may raise). -/
structure Env where
  provider : String
  openaiImportOk : Bool
  arxivLoad : String → Int → Except PyErr (List Document)
  ssCall : String → Int → Except PyErr SSResponse
  get_embeddings_result : Except PyErr Unit
  embedAttempt : Nat → Option PyErr
  similaritySearch : List Fragment → String → Nat → Except PyErr (List Fragment)

/-- Python try/except over a fallible body: on an exception apply the
handler. -/
def pyTry {α : Type} (body : Except PyErr α) (handler : PyErr → Except PyErr α) :
    Except PyErr α :=
  match body with
  | .ok a => .ok a
  | .error e => handler e

/-- The metadata stamping loop of search_arxiv (paper_sources.py:26-32):
source and source_name are set, and url is set from the Entry ID metadata
(to the empty string when Entry ID is missing or falsy). -/
def stampArxiv (d : Document) : Document :=
  let m0 := { d.meta with source := some "arxiv", source_name := some "ArXiv" }
  let m1 :=
    if (m0.entryId.getD "").isEmpty then { m0 with url := some (m0.entryId.getD "") }
    else { m0 with url := m0.entryId }
  { d with meta := m1 }

/-- search_arxiv (paper_sources.py:12-37): run the ArXiv loader and stamp
metadata; any exception is logged and converted to an empty list by the
enclosing try/except. -/
def search_arxiv (env : Env) (query : String) (max_results : Int) :
    Except PyErr (List Document) :=
  pyTry
    (match env.arxivLoad query max_results with
     | .error e => .error e
     | .ok docs => .ok (docs.map stampArxiv))
    (fun _ => .ok [])

/-- Build one Document from a Semantic Scholar item (paper_sources.py:66-88).
A missing year or abstract renders as the empty string, matching the
dictionary-get defaults; a year of 0 is falsy for the Published field. -/
def mkSSDoc (item : SSItem) : Document :=
  let title := item.title.getD ""
  let authors := String.intercalate ", " (item.authors.map (fun a => a.getD ""))
  let yearStr :=
    match item.year with
    | some y => if y = 0 then "" else toString y
    | none => ""
  let abstract := item.abstract.getD ""
  let paper_id := item.paperId.getD ""
  let url := item.url.getD
    (if paper_id = "" then "" else "https://www.semanticscholar.org/paper/" ++ paper_id)
  { content := ("TÍTULO: " ++ title ++ "\nAUTORES: " ++ authors ++ "\nANO: " ++ yearStr
      ++ "\n\nRESUMO: " ++ abstract).data
    meta := { title := some title, authors := some authors, published := some yearStr
              source := some "semantic_scholar", source_name := some "Semantic Scholar"
              url := some url, paperId := some paper_id } }

/-- search_semantic_scholar (paper_sources.py:40-93): HTTP search with the
limit capped at 100, empty list on a non-200 status or a missing data key,
at most max_results items converted to documents; any exception is logged
and converted to an empty list by the enclosing try/except. -/
def search_semantic_scholar (env : Env) (query : String) (max_results : Int) :
    Except PyErr (List Document) :=
  pyTry
    (match env.ssCall query (min max_results 100) with
     | .error e => .error e
     | .ok resp =>
       if resp.status ≠ 200 then .ok []
       else
         match resp.jsonResult with
         | .error e => .error e
         | .ok none => .ok []
         | .ok (some items) => .ok ((items.take max_results.toNat).map mkSSDoc))
    (fun _ => .ok [])

/-- search_all_sources (paper_sources.py:95-122): dispatch each requested
source id to its adapter, skipping unknown ids with a warning, concatenating
results in request order. -/
def search_all_sources (env : Env) (query : String) :
    List (List Char) → Int → Except PyErr (List Document)
  | [], _ => .ok []
  | s :: rest, max_per_source =>
    let r :=
      if pyLower s = "arxiv".data then search_arxiv env query max_per_source
      else if pyLower s = "semantic_scholar".data then
        search_semantic_scholar env query max_per_source
      else .ok []
    match r with
    | .error e => .error e
    | .ok docs =>
      match search_all_sources env query rest max_per_source with
      | .error e => .error e
      | .ok more => .ok (docs ++ more)

/-- enrich_documents on one document (paper_sources.py:124-144): the content
is rewritten to a provenance-prefixed string built from the metadata with the
source's dictionary-get defaults. -/
def enrich_one (d : Document) : Document :=
  let source := d.meta.source.getD "unknown"
  let source_name := d.meta.source_name.getD (pyUpperS source)
  let title := d.meta.title.getD ""
  let date := d.meta.published.getD ""
  let url := d.meta.url.getD ""
  { d with content :=
      ("FONTE: " ++ source_name ++ "\nTÍTULO: " ++ title ++ "\nDATA: " ++ date
        ++ "\nLINK: " ++ url ++ "\nRESUMO: ").data ++ d.content }

/-- enrich_documents (paper_sources.py:124-144): a 1:1 pass over the list. -/
def enrich_documents (docs : List Document) : List Document := docs.map enrich_one

/-- Modelled from the spec: the Fragment Splitter (the program calls
langchain's RecursiveCharacterTextSplitter, library code not in this
repository). Per the spec it splits content into overlapping windows of
chunk_size characters with overlap characters shared between consecutive
windows, i.e. window starts step by chunk_size - overlap. Fuel-based
recursion; the fuel s.length always suffices since each step drops at least
one character. -/
def splitTextGo (chunk_size step : Nat) : Nat → List Char → List (List Char)
  | 0, s => [s]
  | fuel + 1, s =>
    if s.length ≤ chunk_size ∨ step = 0 then [s]
    else s.take chunk_size :: splitTextGo chunk_size step fuel (s.drop step)

/-- Modelled from the spec: one document's content split into sliding
windows of chunk_size characters stepping by chunk_size - overlap. -/
def splitText (chunk_size overlap : Nat) (s : List Char) : List (List Char) :=
  splitTextGo chunk_size (chunk_size - overlap) s.length s

/-- Modelled from the spec: text_splitter.split_documents with
chunk_size=1000 and chunk_overlap=100 (mcp_server.py:123-124): every
document becomes its windows in order, each fragment inheriting the parent
metadata; document order is preserved. -/
def split_documents : List Document → List Fragment
  | [] => []
  | d :: rest =>
    (splitText 1000 100 d.content).map (fun t => { text := t, meta := d.meta })
      ++ split_documents rest

/-- The retry bound of mcp_server.py:134. -/
def max_retries : Nat := 3

/-- The base backoff delay in seconds of mcp_server.py:135. -/
def retry_delay : Nat := 2

/-- The backoff wait before the next attempt: retry_delay * 2 ^ attempt
(mcp_server.py:154,168,176). -/
def backoff (attempt : Nat) : Nat := retry_delay * 2 ^ attempt

/-- The generic transient-failure test of mcp_server.py:166 on the lowercased
exception message. -/
def classifyGeneric (e : PyErr) : Bool :=
  pyContains "rate limit" (pyLowerS e.msg) || pyContains "429" (pyLowerS e.msg)
    || pyContains "quota" (pyLowerS e.msg)

/-- The return string of mcp_server.py:115. -/
def noPapersMsg (sources : List Char) : String :=
  "No papers found in the sources " ++ String.mk sources ++ " for this theme."

/-- The return string of mcp_server.py:180. -/
def successMsg (n : Nat) : String :=
  "Success! " ++ toString n ++ " papers were indexed in the RAG."

/-- The return string of mcp_server.py:159. -/
def openaiQuotaMsg : String :=
  "Error: OpenAI quota exceeded. Check: https://platform.openai.com/account/billing or use EMBEDDING_PROVIDER=gemini/local"

/-- The return string of mcp_server.py:161. -/
def insufficientQuotaMsg : String :=
  "Error: Insufficient quota. Add credits or use EMBEDDING_PROVIDER=gemini/local"

/-- The return string of mcp_server.py:172. -/
def rateLimitMsg (provider : String) (e : PyErr) : String :=
  "Error: Rate limit or quota exceeded for " ++ provider ++ ". Details: " ++ e.msg

/-- The return string of mcp_server.py:178. -/
def embeddingsErrorMsg (e : PyErr) : String :=
  "Error creating embeddings: " ++ e.msg

/-- The return string of mcp_server.py:183 (the outer except). -/
def processingErrorMsg (e : PyErr) : String :=
  "Error processing papers: " ++ e.msg

/-- The return string of mcp_server.py:192. -/
def emptyKnowledgeBaseMsg : String :=
  "The knowledge base is empty. Use 'update_knowledge_base' first."

/-- The return string of mcp_server.py:204. -/
def queryErrorMsg (e : PyErr) : String :=
  "Error querying RAG: " ++ e.msg

/-- Modelled from the spec: the FAISS vector index (library code not in this
repository) as an append-only in-memory sequence of entries.
FAISS.from_documents creates the index from the fragments; add_documents
appends them (mcp_server.py:140-143). -/
def applyAdd (db : Option (List Fragment)) (docs : List Fragment) :
    Option (List Fragment) :=
  match db with
  | none => some docs
  | some old => some (old ++ docs)

/-- Observable outcome of one update_knowledge_base call: the resulting
index state, the returned string, the backoff sleeps performed in seconds in
order, and the number of embedding attempts made. -/
structure LoopOut where
  db : Option (List Fragment)
  reply : String
  sleeps : List Nat
  attempts : Nat
  deriving Repr, DecidableEq

/-- The retry loop of update_knowledge_base (mcp_server.py:137-178),
translated branch by branch. remaining counts the loop iterations left
(starting at max_retries), attempt is the Python loop index. A success
breaks to the success return of line 180; exhausting the range without a
break would also fall through to line 180. The OpenAI-specific block runs
only when the provider is openai and the openai import succeeds; otherwise
(and when neither isinstance matches) control falls to the generic
treatment of lines 166-178. -/
def retryGo (env : Env) (docs_split : List Fragment) (succMsg : String) :
    Nat → Nat → Option (List Fragment) → List Nat → LoopOut
  | 0, attempt, db, sleeps => { db := db, reply := succMsg, sleeps := sleeps, attempts := attempt }
  | remaining + 1, attempt, db, sleeps =>
    match env.embedAttempt attempt with
    | none =>
      { db := applyAdd db docs_split, reply := succMsg, sleeps := sleeps, attempts := attempt + 1 }
    | some e =>
      if env.provider = "openai" ∧ env.openaiImportOk then
        if e.isRateLimitError then
          if attempt < max_retries - 1 then
            retryGo env docs_split succMsg remaining (attempt + 1) db (sleeps ++ [backoff attempt])
          else { db := db, reply := openaiQuotaMsg, sleeps := sleeps, attempts := attempt + 1 }
        else if e.isAPIError ∧ pyContains "insufficient_quota" (pyLowerS e.msg) then
          { db := db, reply := insufficientQuotaMsg, sleeps := sleeps, attempts := attempt + 1 }
        else if classifyGeneric e then
          if attempt < max_retries - 1 then
            retryGo env docs_split succMsg remaining (attempt + 1) db (sleeps ++ [backoff attempt])
          else { db := db, reply := rateLimitMsg env.provider e, sleeps := sleeps, attempts := attempt + 1 }
        else
          if attempt < max_retries - 1 then
            retryGo env docs_split succMsg remaining (attempt + 1) db (sleeps ++ [backoff attempt])
          else { db := db, reply := embeddingsErrorMsg e, sleeps := sleeps, attempts := attempt + 1 }
      else
        if classifyGeneric e then
          if attempt < max_retries - 1 then
            retryGo env docs_split succMsg remaining (attempt + 1) db (sleeps ++ [backoff attempt])
          else { db := db, reply := rateLimitMsg env.provider e, sleeps := sleeps, attempts := attempt + 1 }
        else
          if attempt < max_retries - 1 then
            retryGo env docs_split succMsg remaining (attempt + 1) db (sleeps ++ [backoff attempt])
          else { db := db, reply := embeddingsErrorMsg e, sleeps := sleeps, attempts := attempt + 1 }

/-- The parsed source id list of mcp_server.py:105. -/
def source_list_of (sources : List Char) : List (List Char) :=
  (splitComma sources).map pyStripLower

/-- The per-source result limit of mcp_server.py:106:
max(1, max_papers // len(source_list)) with Python floor division. -/
def max_per_source_of (max_papers : Int) (sources : List Char) : Int :=
  max 1 (Int.fdiv max_papers ((source_list_of sources).length : Int))

/-- Modelled from the spec: the per-source limit formula as section 4.7
states it, max(1, max_total integer-divided by count(source_ids)). -/
def per_source_limit_spec (max_total : Int) (source_count : Nat) : Int :=
  max 1 (Int.fdiv max_total (source_count : Int))

/-- The body of update_knowledge_base inside its outer try
(mcp_server.py:103-180): parse sources, compute the per-source limit, search
all sources, return the nothing-found message on an empty result, otherwise
enrich, split, build the embeddings client and run the retry loop. -/
def update_knowledge_base_body (env : Env) (db : Option (List Fragment))
    (tema : String) (max_papers : Int) (sources : List Char) :
    Except PyErr LoopOut :=
  match search_all_sources env tema (source_list_of sources) (max_per_source_of max_papers sources) with
  | .error e => .error e
  | .ok raw_docs =>
    if raw_docs.isEmpty then .ok { db := db, reply := noPapersMsg sources, sleeps := [], attempts := 0 }
    else
      let enriched := enrich_documents raw_docs
      let docs_split := split_documents enriched
      match env.get_embeddings_result with
      | .error e => .error e
      | .ok _ =>
        .ok (retryGo env docs_split (successMsg enriched.length) max_retries 0 db [])

/-- update_knowledge_base (mcp_server.py:82-183): the body wrapped in the
outer try/except that converts any exception into the processing-error
string with the index untouched. -/
def update_knowledge_base (env : Env) (db : Option (List Fragment))
    (tema : String) (max_papers : Int) (sources : List Char) : LoopOut :=
  match update_knowledge_base_body env db tema max_papers sources with
  | .ok r => r
  | .error e => { db := db, reply := processingErrorMsg e, sleeps := [], attempts := 0 }

/-- update_knowledge_base viewed as a fallible remote call: the whole
operation including its outer except, so that never-raises is the statement
that this is always an ok value. -/
def update_knowledge_base_exc (env : Env) (db : Option (List Fragment))
    (tema : String) (max_papers : Int) (sources : List Char) :
    Except PyErr LoopOut :=
  pyTry (update_knowledge_base_body env db tema max_papers sources)
    (fun e => .ok { db := db, reply := processingErrorMsg e, sleeps := [], attempts := 0 })

/-- The body of query_rag inside its try (mcp_server.py:194-202): similarity
search with k=5 and concatenation of the fragment texts each framed by the
delimiter. -/
def query_rag_body (env : Env) (entries : List Fragment) (question : String) :
    Except PyErr String :=
  match env.similaritySearch entries question 5 with
  | .error e => .error e
  | .ok results =>
    .ok (String.mk (results.foldl
      (fun acc doc => acc ++ "\n---\n".data ++ doc.text ++ "\n".data) []))

/-- query_rag (mcp_server.py:185-204): the empty-index sentinel is checked
before the try; inside, any exception becomes the query-error string. -/
def query_rag (env : Env) (db : Option (List Fragment)) (question : String) : String :=
  match db with
  | none => emptyKnowledgeBaseMsg
  | some entries =>
    match query_rag_body env entries question with
    | .ok s => s
    | .error e => queryErrorMsg e

/-- query_rag viewed as a fallible remote call: the whole operation with its
internal try/except, so that never-raises is the statement that this is
always an ok value. -/
def query_rag_exc (env : Env) (db : Option (List Fragment)) (question : String) :
    Except PyErr String :=
  match db with
  | none => .ok emptyKnowledgeBaseMsg
  | some entries =>
    pyTry (query_rag_body env entries question) (fun e => .ok (queryErrorMsg e))

/-- One remote tool call against the server: the two exposed operations with
their arguments. -/
inductive KBCall where
  | update (env : Env) (tema : String) (max_papers : Int) (sources : List Char)
  | query (env : Env) (question : String)

/-- The effect of one call on the process-wide vector_db state
(mcp_server.py:17): update_knowledge_base may reassign it, query_rag only
reads it. -/
def stepCall (db : Option (List Fragment)) : KBCall → Option (List Fragment)
  | .update env tema max_papers sources => (update_knowledge_base env db tema max_papers sources).db
  | .query _ _ => db

/-- The entry count of the vector index state; an absent index has size 0. -/
def dbSize : Option (List Fragment) → Nat
  | none => 0
  | some l => l.length

/-- The spec's index invariant: the index is either absent or non-empty. -/
def dbInv (db : Option (List Fragment)) : Prop :=
  db = none ∨ ∃ l, db = some l ∧ l ≠ []


/-- Consecutive fragments share a boundary region of exactly k characters:
the last k characters of each fragment equal the first k of the next, and
that shared run has length exactly k. -/
def consecOverlap (k : Nat) : List (List Char) → Prop
  | a :: b :: rest =>
    a.drop (a.length - k) = b.take k ∧ (b.take k).length = k ∧ consecOverlap k (b :: rest)
  | _ => True

/-- Concrete metadata for a loaded ArXiv document, used in closed instances. -/
def meta1 : Metadata :=
  { source := some "arxiv", source_name := some "ArXiv",
    title := some "T", published := some "2024", url := some "u", entryId := some "eid" }

/-- A concrete document returned by the ArXiv oracle in closed instances. -/
def doc1 : Document := { content := "hello".data, meta := meta1 }

/-- A concrete fragment for pre-populated index states in closed instances. -/
def frag1 : Fragment := { text := "t".data, meta := {} }

/-- A persistent non-transient embedding failure: its message contains none
of the transient markers (rate limit, 429, quota). -/
def errNT : PyErr := { msg := "invalid api key" }

/-- A persistent rate-limit style failure for the generic transient branch. -/
def eRL : PyErr := { msg := "Rate limit reached" }

/-- An OpenAI APIError carrying insufficient_quota in its message. -/
def eIQ : PyErr := { msg := "insufficient_quota: add billing", isAPIError := true }

/-- A network failure raised by an adapter oracle. -/
def eN : PyErr := { msg := "network down" }

/-- A world where ArXiv returns one paper but every embedding attempt fails
with the non-transient errNT. -/
def env1 : Env :=
  { provider := "local", openaiImportOk := false,
    arxivLoad := fun _ _ => .ok [doc1],
    ssCall := fun _ _ => .ok { status := 200, jsonResult := .ok none },
    get_embeddings_result := .ok (),
    embedAttempt := fun _ => some errNT,
    similaritySearch := fun _ _ _ => .ok [] }

/-- A world where both adapters yield zero documents (ArXiv loads nothing,
Semantic Scholar answers 404). -/
def envE : Env :=
  { provider := "local", openaiImportOk := false,
    arxivLoad := fun _ _ => .ok [],
    ssCall := fun _ _ => .ok { status := 404, jsonResult := .ok none },
    get_embeddings_result := .ok (),
    embedAttempt := fun _ => none,
    similaritySearch := fun _ _ _ => .ok [] }

/-- A world where every embedding attempt fails with the rate-limit error. -/
def envRL : Env :=
  { provider := "local", openaiImportOk := false,
    arxivLoad := fun _ _ => .ok [doc1],
    ssCall := fun _ _ => .ok { status := 404, jsonResult := .ok none },
    get_embeddings_result := .ok (),
    embedAttempt := fun _ => some eRL,
    similaritySearch := fun _ _ _ => .ok [] }

/-- A world where embedding succeeds on the first attempt. -/
def envOK : Env :=
  { provider := "local", openaiImportOk := false,
    arxivLoad := fun _ _ => .ok [doc1],
    ssCall := fun _ _ => .ok { status := 404, jsonResult := .ok none },
    get_embeddings_result := .ok (),
    embedAttempt := fun _ => none,
    similaritySearch := fun _ _ _ => .ok [] }

/-- An OpenAI world where every embedding attempt fails with the
insufficient-quota APIError. -/
def envOAI : Env :=
  { provider := "openai", openaiImportOk := true,
    arxivLoad := fun _ _ => .ok [doc1],
    ssCall := fun _ _ => .ok { status := 404, jsonResult := .ok none },
    get_embeddings_result := .ok (),
    embedAttempt := fun _ => some eIQ,
    similaritySearch := fun _ _ _ => .ok [] }

/-- An OpenAI world where every embedding attempt fails with the
non-transient errNT. -/
def envOAInt : Env :=
  { provider := "openai", openaiImportOk := true,
    arxivLoad := fun _ _ => .ok [doc1],
    ssCall := fun _ _ => .ok { status := 404, jsonResult := .ok none },
    get_embeddings_result := .ok (),
    embedAttempt := fun _ => some errNT,
    similaritySearch := fun _ _ _ => .ok [] }

/-- A world where both adapter oracles raise network errors. -/
def envF : Env :=
  { provider := "local", openaiImportOk := false,
    arxivLoad := fun _ _ => .error eN,
    ssCall := fun _ _ => .error eN,
    get_embeddings_result := .ok (),
    embedAttempt := fun _ => none,
    similaritySearch := fun _ _ _ => .ok [] }

/-- The retry loop either leaves the index untouched (failure or fall-through)
or performs exactly one append of the split fragments (the single successful
FAISS create/add of mcp_server.py:140-143). -/
theorem retryGo_db_cases (env : Env) (docs : List Fragment) (m : String) :
    ∀ (rem att : Nat) (db : Option (List Fragment)) (sleeps : List Nat),
      (retryGo env docs m rem att db sleeps).db = db ∨
      (retryGo env docs m rem att db sleeps).db = applyAdd db docs := by
  intro rem
  induction rem with
  | zero => intro att db sleeps; left; rfl
  | succ n ih =>
    intro att db sleeps
    rw [retryGo]
    cases h : env.embedAttempt att with
    | none => simp [h]
    | some e =>
      simp only [h]
      split_ifs <;>
        first
          | exact ih (att + 1) db (sleeps ++ [backoff att])
          | (left; rfl)

/-- The window splitter always yields at least one window. -/
theorem splitTextGo_ne_nil (cs st : Nat) : ∀ (fuel : Nat) (s : List Char),
    splitTextGo cs st fuel s ≠ [] := by
  intro fuel
  induction fuel with
  | zero => intro s; simp [splitTextGo]
  | succ n ih => intro s; simp only [splitTextGo]; split <;> simp

/-- Splitting a non-empty document list yields at least one fragment. -/
theorem split_documents_ne_nil (docs : List Document) (h : docs ≠ []) :
    split_documents docs ≠ [] := by
  cases docs with
  | nil => exact absurd rfl h
  | cons d rest =>
    simp only [split_documents]
    intro hcon
    rcases List.append_eq_nil.mp hcon with ⟨h1, _⟩
    exact splitTextGo_ne_nil 1000 900 d.content.length d.content (List.map_eq_nil_iff.mp h1)

/-- One update_knowledge_base call either leaves the index untouched or
appends one non-empty batch of fragments. -/
theorem update_db_cases (env : Env) (db : Option (List Fragment)) (tema : String)
    (mp : Int) (srcs : List Char) :
    (update_knowledge_base env db tema mp srcs).db = db ∨
    ∃ ds, ds ≠ [] ∧ (update_knowledge_base env db tema mp srcs).db = applyAdd db ds := by
  unfold update_knowledge_base update_knowledge_base_body
  cases h : search_all_sources env tema (source_list_of srcs) (max_per_source_of mp srcs) with
  | error e => left; rfl
  | ok raw_docs =>
    by_cases hr : raw_docs.isEmpty
    · simp [hr]
    · simp only [hr, if_false]
      cases env.get_embeddings_result with
      | error e => left; rfl
      | ok u =>
        have hne : split_documents (enrich_documents raw_docs) ≠ [] := by
          apply split_documents_ne_nil
          simp only [enrich_documents, ne_eq, List.map_eq_nil_iff]
          intro hcon
          rw [hcon] at hr
          simp at hr
        rcases retryGo_db_cases env (split_documents (enrich_documents raw_docs))
            (successMsg (enrich_documents raw_docs).length) max_retries 0 db [] with hcase | hcase
        · left; exact hcase
        · right; exact ⟨_, hne, hcase⟩

/-- One call preserves the absent-or-non-empty invariant of the index. -/
theorem stepCall_inv (db : Option (List Fragment)) (c : KBCall) (h : dbInv db) :
    dbInv (stepCall db c) := by
  cases c with
  | query env q => exact h
  | update env tema mp srcs =>
    rcases update_db_cases env db tema mp srcs with hc | ⟨ds, hds, hc⟩
    · simp only [stepCall]; rw [hc]; exact h
    · simp only [stepCall]
      rw [hc]
      cases db with
      | none => exact Or.inr ⟨ds, rfl, hds⟩
      | some old =>
        refine Or.inr ⟨old ++ ds, rfl, ?_⟩
        simp [hds]

/-- One call never shrinks the index. -/
theorem stepCall_size (db : Option (List Fragment)) (c : KBCall) :
    dbSize db ≤ dbSize (stepCall db c) := by
  cases c with
  | query env q => exact le_refl _
  | update env tema mp srcs =>
    rcases update_db_cases env db tema mp srcs with hc | ⟨ds, _, hc⟩
    · simp only [stepCall]; rw [hc]
    · simp only [stepCall]
      rw [hc]
      cases db with
      | none => simp [applyAdd, dbSize]
      | some old => simp [applyAdd, dbSize]

/-- Folding calls preserves the invariant. -/
theorem foldCalls_inv (calls : List KBCall) :
    ∀ db, dbInv db → dbInv (calls.foldl stepCall db) := by
  induction calls with
  | nil => intro db h; exact h
  | cons c rest ih => intro db h; exact ih (stepCall db c) (stepCall_inv db c h)

/-- Folding further calls never shrinks the index. -/
theorem foldCalls_size (calls : List KBCall) :
    ∀ db, dbSize db ≤ dbSize (calls.foldl stepCall db) := by
  induction calls with
  | nil => intro db; exact le_refl _
  | cons c rest ih =>
    intro db
    exact le_trans (stepCall_size db c) (ih (stepCall db c))

/-- A window over content short enough to fit is the whole content. -/
theorem splitTextGo_of_le (cs st fuel : Nat) (s : List Char) (h : s.length ≤ cs) :
    splitTextGo cs st fuel s = [s] := by
  cases fuel <;> simp [splitTextGo, h]

/-- Unfolding one window when the content is longer than the window. -/
theorem splitTextGo_step (cs st fuel : Nat) (s : List Char) (hst : st ≠ 0)
    (h : cs < s.length) :
    splitTextGo cs st (fuel + 1) s = s.take cs :: splitTextGo cs st fuel (s.drop st) := by
  simp [splitTextGo, Nat.not_le.mpr h, hst]

/-- Splitting 2500 characters with chunk 1000 and overlap 100 gives windows
starting at 0, 900 and 1800. -/
theorem splitText_2500 (s : List Char) (h : s.length = 2500) :
    splitText 1000 100 s = [s.take 1000, (s.drop 900).take 1000, s.drop 1800] := by
  unfold splitText
  rw [h]
  have e1 : splitTextGo 1000 900 2500 s
      = s.take 1000 :: splitTextGo 1000 900 2499 (s.drop 900) :=
    splitTextGo_step 1000 900 2499 s (by norm_num) (by omega)
  have e2 : splitTextGo 1000 900 2499 (s.drop 900)
      = (s.drop 900).take 1000 :: splitTextGo 1000 900 2498 ((s.drop 900).drop 900) :=
    splitTextGo_step 1000 900 2498 (s.drop 900) (by norm_num) (by simp [h])
  have e3 : (s.drop 900).drop 900 = s.drop 1800 := by
    rw [List.drop_drop]
  have e4 : splitTextGo 1000 900 2498 (s.drop 1800) = [s.drop 1800] :=
    splitTextGo_of_le 1000 900 2498 (s.drop 1800) (by simp [h])
  rw [e1, e2, e3, e4]

/-- The full window properties for one 2500-character content: three windows,
each a contiguous substring, consecutive windows sharing exactly 100
characters at the boundary. -/
theorem split_scenario_one (s : List Char) (h : s.length = 2500) :
    (splitText 1000 100 s).length = 3 ∧
    (∀ t ∈ splitText 1000 100 s, ∃ l r, s = l ++ t ++ r) ∧
    consecOverlap 100 (splitText 1000 100 s) := by
  have hs := splitText_2500 s h
  refine ⟨by rw [hs]; rfl, ?_, ?_⟩
  · intro t ht
    rw [hs] at ht
    simp only [List.mem_cons, List.not_mem_nil, or_false] at ht
    rcases ht with rfl | rfl | rfl
    · exact ⟨[], s.drop 1000, by simp⟩
    · refine ⟨s.take 900, (s.drop 900).drop 1000, ?_⟩
      rw [List.append_assoc, List.take_append_drop 1000 (s.drop 900)]
      exact (List.take_append_drop 900 s).symm
    · exact ⟨s.take 1800, [], by simp⟩
  · rw [hs]
    refine ⟨?_, ?_, ?_, ?_, trivial⟩
    · have hl : (s.take 1000).length = 1000 := by simp [h]
      rw [hl]
      rw [List.take_take]
      rw [List.take_drop]
      norm_num
    · simp [h]
    · have hl : ((s.drop 900).take 1000).length = 1000 := by simp [h]
      rw [hl]
      rw [List.take_drop 900 1000 s]
      rw [List.drop_drop]
      rw [List.take_drop 1800 100 s]
    · simp [h]

/-- Splitting on commas never yields an empty field list. -/
theorem splitComma_ne_nil (s : List Char) : splitComma s ≠ [] := by
  induction s with
  | nil => simp [splitComma]
  | cons c rest ih =>
    simp only [splitComma]
    split
    · simp
    · split <;> simp

/-- When both adapters yield zero documents, aggregation over any source list
yields zero documents. -/
theorem search_all_sources_empty (env : Env) (tema : String) (mps : Int)
    (hA : ∀ q n, search_arxiv env q n = .ok [])
    (hS : ∀ q n, search_semantic_scholar env q n = .ok []) :
    ∀ ss : List (List Char), search_all_sources env tema ss mps = .ok [] := by
  intro ss
  induction ss with
  | nil => rfl
  | cons s rest ih =>
    simp only [search_all_sources]
    by_cases h1 : pyLower s = "arxiv".data
    · rw [if_pos h1, hA, ih]; rfl
    · rw [if_neg h1]
      by_cases h2 : pyLower s = "semantic_scholar".data
      · rw [if_pos h2, hS, ih]; rfl
      · rw [if_neg h2, ih]; rfl

/-- When no source id names a known adapter, aggregation yields zero
documents (every id is skipped with a warning). -/
theorem search_all_sources_unknown (env : Env) (tema : String) (mps : Int)
    (ss : List (List Char))
    (h : ∀ s ∈ ss, pyLower s ≠ "arxiv".data ∧ pyLower s ≠ "semantic_scholar".data) :
    search_all_sources env tema ss mps = .ok [] := by
  induction ss with
  | nil => rfl
  | cons s rest ih =>
    have hs := h s (List.mem_cons_self s rest)
    simp only [search_all_sources]
    rw [if_neg hs.1, if_neg hs.2]
    rw [ih (fun x hx => h x (List.mem_cons_of_mem s hx))]; rfl

/-- An empty aggregation makes update_knowledge_base return the
nothing-found message with the index untouched. -/
theorem nothing_found_of_search_empty (env : Env) (db : Option (List Fragment))
    (tema : String) (mp : Int) (srcs : List Char)
    (h : search_all_sources env tema (source_list_of srcs) (max_per_source_of mp srcs) = .ok []) :
    update_knowledge_base env db tema mp srcs =
      { db := db, reply := noPapersMsg srcs, sleeps := [], attempts := 0 } := by
  unfold update_knowledge_base update_knowledge_base_body
  rw [h]
  rfl

/-- A try/except whose handler always returns normally yields an ok value. -/
theorem pyTry_isOk {α : Type} (body : Except PyErr α) (f : PyErr → α) :
    (pyTry body (fun e => Except.ok (f e))).isOk = true := by
  cases body <;> rfl

/-- A message containing insufficient_quota also contains quota, so it is
always marked transient by the generic message test. -/
theorem pyContains_quota_of_insufficient (hay : String)
    (h : pyContains "insufficient_quota" hay = true) : pyContains "quota" hay = true := by
  unfold pyContains at h ⊢
  rw [List.any_eq_true] at h ⊢
  obtain ⟨t, ht, hpre⟩ := h
  rw [List.isPrefixOf_iff_prefix] at hpre
  obtain ⟨rest, hrest⟩ := hpre
  refine ⟨"quota".data ++ rest, ?_, ?_⟩
  · rw [List.mem_tails] at ht ⊢
    have hsplit : "insufficient_".data ++ ("quota".data ++ rest) = t := by
      rw [← hrest]
      simp [← List.append_assoc]
    exact List.IsSuffix.trans ⟨"insufficient_".data, hsplit⟩ ht
  · rw [List.isPrefixOf_iff_prefix]
    exact ⟨rest, rfl⟩

/-- C1, counterexample: the claim says every non-transient embedding failure
(not classified as rate-limit, quota, or connection trouble) is surfaced
immediately, with no retry attempt and no backoff sleep. In the world env1
every embedding attempt fails with errNT ("invalid api key"), which the
code classifies as non-transient (classifyGeneric errNT = false), yet
update_knowledge_base performs backoff sleeps of 2s and 4s and makes 3
attempts before surfacing the failure string — refuting the claim. -/
theorem c1_counterexample :
    classifyGeneric errNT = false ∧
    (update_knowledge_base env1 none "x" 10 "arxiv".data).sleeps = [2, 4] ∧
    (update_knowledge_base env1 none "x" 10 "arxiv".data).attempts = 3 ∧
    (update_knowledge_base env1 none "x" 10 "arxiv".data).reply = embeddingsErrorMsg errNT :=
  ⟨by decide, by decide, by decide, by decide⟩

/-- C1, amended: a persistent non-transient embedding failure — one that is
not an OpenAI RateLimitError and whose message contains none of the markers
rate limit, 429, quota — is not surfaced immediately: for every provider,
the retry loop of update_knowledge_base makes max_retries = 3 attempts with
backoff sleeps of 2s and 4s before surfacing the descriptive failure string.
Exception: under the openai provider with the openai package importable, an
APIError whose message contains insufficient_quota is surfaced immediately
with no retry and no sleep. (Such a message contains quota, so that error is
quota-marked and lies outside the first universal.) -/
theorem c1_amended :
    (∀ (env : Env) (e : PyErr) (docs : List Fragment) (m : String)
        (db : Option (List Fragment)),
        (∀ k, env.embedAttempt k = some e) → e.isRateLimitError = false →
        classifyGeneric e = false →
        retryGo env docs m max_retries 0 db [] =
          { db := db, reply := embeddingsErrorMsg e, sleeps := [2, 4], attempts := 3 }) ∧
    (∀ (env : Env) (e : PyErr) (docs : List Fragment) (m : String)
        (db : Option (List Fragment)),
        env.provider = "openai" → env.openaiImportOk = true →
        env.embedAttempt 0 = some e → e.isRateLimitError = false → e.isAPIError = true →
        pyContains "insufficient_quota" (pyLowerS e.msg) = true →
        retryGo env docs m max_retries 0 db [] =
          { db := db, reply := insufficientQuotaMsg, sleeps := [], attempts := 1 }) := by
  constructor
  · intro env e docs m db hf hr hc
    have h0 := hf 0
    have h1 := hf 1
    have h2 := hf 2
    have hiq : pyContains "insufficient_quota" (pyLowerS e.msg) = false := by
      cases hx : pyContains "insufficient_quota" (pyLowerS e.msg)
      · rfl
      · exfalso
        have hq := pyContains_quota_of_insufficient _ hx
        simp [classifyGeneric, hq] at hc
    by_cases hoi : env.provider = "openai" ∧ env.openaiImportOk = true
    · simp [retryGo, max_retries, h0, h1, h2, hoi, hr, hc, hiq, backoff, retry_delay]
    · simp [retryGo, max_retries, h0, h1, h2, hoi, hc, backoff, retry_delay]
  · intro env e docs m db hp hi h0 hr ha hq
    simp [retryGo, max_retries, h0, hp, hi, hr, ha, hq]

/-- C1, witness for the amended claim: the retried branch instantiated both
at the local-provider world env1 and at the openai-provider world envOAInt
(same persistent non-transient errNT), and the immediate branch at envOAI
with the OpenAI insufficient-quota APIError eIQ. -/
theorem c1_amended_witness :
    retryGo env1 [] "ok" max_retries 0 none [] =
      { db := none, reply := embeddingsErrorMsg errNT, sleeps := [2, 4], attempts := 3 } ∧
    retryGo envOAInt [] "ok" max_retries 0 none [] =
      { db := none, reply := embeddingsErrorMsg errNT, sleeps := [2, 4], attempts := 3 } ∧
    retryGo envOAI [] "ok" max_retries 0 none [] =
      { db := none, reply := insufficientQuotaMsg, sleeps := [], attempts := 1 } :=
  ⟨c1_amended.1 env1 errNT [] "ok" none (fun _ => rfl) rfl (by decide),
   c1_amended.1 envOAInt errNT [] "ok" none (fun _ => rfl) rfl (by decide),
   c1_amended.2 envOAI eIQ [] "ok" none rfl rfl rfl rfl rfl (by decide)⟩

/-- C2: for every world and every input, the two exposed operations viewed
as fallible remote calls always return an ok textual result — no exception
escapes update_knowledge_base or query_rag to the caller. -/
theorem c2_never_raises (env : Env) (db : Option (List Fragment)) (tema : String)
    (max_papers : Int) (sources : List Char) (question : String) :
    (update_knowledge_base_exc env db tema max_papers sources).isOk = true ∧
    (query_rag_exc env db question).isOk = true := by
  constructor
  · unfold update_knowledge_base_exc
    exact pyTry_isOk _ _
  · cases db with
    | none => rfl
    | some entries => exact pyTry_isOk _ _

/-- C3: under a simulated rate-limit failure that never stops, the embedding
step of update_knowledge_base makes exactly max_retries = 3 attempts with
the backoff delay doubling (2s then 4s) before surfacing the rate-limit
failure string; and once the failure stops, the first clean attempt
succeeds immediately, performing only the backoff sleeps of the failed
attempts before it. -/
theorem c3_retry_bound :
    (∀ (env : Env) (e : PyErr) (docs : List Fragment) (m : String)
        (db : Option (List Fragment)),
        env.provider ≠ "openai" → (∀ k, env.embedAttempt k = some e) →
        classifyGeneric e = true →
        retryGo env docs m max_retries 0 db [] =
          { db := db, reply := rateLimitMsg env.provider e, sleeps := [2, 4], attempts := 3 }) ∧
    (∀ (env : Env) (e : PyErr) (docs : List Fragment) (m : String)
        (db : Option (List Fragment)) (j : Nat),
        j < max_retries → (∀ k, k < j → env.embedAttempt k = some e) →
        env.embedAttempt j = none → classifyGeneric e = true → env.provider ≠ "openai" →
        retryGo env docs m max_retries 0 db [] =
          { db := applyAdd db docs, reply := m,
            sleeps := (List.range j).map backoff, attempts := j + 1 }) := by
  constructor
  · intro env e docs m db hp hf hc
    have h0 := hf 0
    have h1 := hf 1
    have h2 := hf 2
    simp [retryGo, max_retries, h0, h1, h2, hp, hc, backoff, retry_delay]
  · intro env e docs m db j hj hfail hok hc hp
    have hj3 : j < 3 := hj
    interval_cases j
    · simp [retryGo, max_retries, hok]
    · have h0 := hfail 0 (by omega)
      simp [retryGo, max_retries, h0, hok, hp, hc, List.range_succ]
    · have h0 := hfail 0 (by omega)
      have h1 := hfail 1 (by omega)
      simp [retryGo, max_retries, h0, h1, hok, hp, hc, backoff, retry_delay, List.range_succ]

/-- C3, witness: the always-failing branch at the concrete rate-limit world
envRL, and the immediate-success branch at envOK. -/
theorem c3_retry_bound_witness :
    retryGo envRL [] "ok" max_retries 0 none [] =
      { db := none, reply := rateLimitMsg "local" eRL, sleeps := [2, 4], attempts := 3 } ∧
    retryGo envOK [] "ok" max_retries 0 none [] =
      { db := applyAdd none [], reply := "ok", sleeps := [], attempts := 1 } := by
  constructor
  · exact c3_retry_bound.1 envRL eRL [] "ok" none (by decide) (fun _ => rfl) (by decide)
  · have h := c3_retry_bound.2 envOK eRL [] "ok" none 0 (by decide)
      (fun k hk => absurd hk (by omega)) rfl (by decide) (by decide)
    simpa using h

/-- C4: when every adapter yields zero documents, update_knowledge_base
returns the nothing-found message and the vector index state is unchanged —
an absent index stays absent and a non-empty index keeps its prior entries,
for every topic, prior state, max_papers and sources string. -/
theorem c4_nothing_found (env : Env) (db : Option (List Fragment)) (tema : String)
    (mp : Int) (srcs : List Char)
    (hA : ∀ q n, search_arxiv env q n = .ok [])
    (hS : ∀ q n, search_semantic_scholar env q n = .ok []) :
    update_knowledge_base env db tema mp srcs =
      { db := db, reply := noPapersMsg srcs, sleeps := [], attempts := 0 } :=
  nothing_found_of_search_empty env db tema mp srcs
    (search_all_sources_empty env tema (max_per_source_of mp srcs) hA hS (source_list_of srcs))

/-- C4, witness: in the world envE (ArXiv loads nothing, Semantic Scholar
answers 404) an update over both sources leaves a one-entry index exactly
as it was and reports nothing found. -/
theorem c4_nothing_found_witness :
    update_knowledge_base envE (some [frag1]) "t" 10 "arxiv,semantic_scholar".data =
      { db := some [frag1], reply := noPapersMsg "arxiv,semantic_scholar".data,
        sleeps := [], attempts := 0 } :=
  c4_nothing_found envE (some [frag1]) "t" 10 "arxiv,semantic_scholar".data
    (fun _ _ => rfl) (fun _ _ => rfl)

/-- C5: for every world and every question, query_rag on an absent index
returns the one fixed empty-knowledge-base sentinel, independent of the
question content. -/
theorem c5_empty_sentinel (env : Env) (question : String) :
    query_rag env none question = emptyKnowledgeBaseMsg := rfl

/-- C6: the per-source limit computed by update_knowledge_base equals the
spec formula max(1, max_papers integer-divided by the number of parsed
source ids) for every max_papers and sources string, and in particular
max_papers = 15 with two sources gives 7. -/
theorem c6_per_source_limit :
    (∀ (max_papers : Int) (sources : List Char),
        max_per_source_of max_papers sources =
          per_source_limit_spec max_papers (source_list_of sources).length) ∧
    max_per_source_of 15 "a,b".data = 7 :=
  ⟨fun _ _ => rfl, by decide⟩

/-- C7: each source adapter never raises past its own boundary: for every
world, query and limit the adapters return an ok value, and on a raised
loader/network error, a non-200 response, or a response-parsing error they
return the empty document list. -/
theorem c7_adapters_never_raise (env : Env) (q : String) (n : Int) :
    (search_arxiv env q n).isOk = true ∧
    (search_semantic_scholar env q n).isOk = true ∧
    (∀ e, env.arxivLoad q n = .error e → search_arxiv env q n = .ok []) ∧
    (∀ e, env.ssCall q (min n 100) = .error e → search_semantic_scholar env q n = .ok []) ∧
    (∀ resp, env.ssCall q (min n 100) = .ok resp → resp.status ≠ 200 →
        search_semantic_scholar env q n = .ok []) ∧
    (∀ resp e, env.ssCall q (min n 100) = .ok resp → resp.jsonResult = .error e →
        search_semantic_scholar env q n = .ok []) := by
  refine ⟨?_, ?_, ?_, ?_, ?_, ?_⟩
  · unfold search_arxiv
    exact pyTry_isOk _ _
  · unfold search_semantic_scholar
    exact pyTry_isOk _ _
  · intro e he
    unfold search_arxiv pyTry
    rw [he]
  · intro e he
    unfold search_semantic_scholar pyTry
    rw [he]
  · intro resp hresp hs
    unfold search_semantic_scholar pyTry
    rw [hresp]
    simp [hs]
  · intro resp e hresp hjson
    unfold search_semantic_scholar pyTry
    rw [hresp]
    by_cases hs : resp.status ≠ 200
    · simp [hs]
    · simp [hs, hjson]

/-- C7, witness: in the world envF, where both adapter oracles raise network
errors, both adapters return the empty document list. -/
theorem c7_adapters_never_raise_witness :
    search_arxiv envF "q" 5 = .ok [] ∧ search_semantic_scholar envF "q" 5 = .ok [] :=
  ⟨(c7_adapters_never_raise envF "q" 5).2.2.1 eN rfl,
   (c7_adapters_never_raise envF "q" 5).2.2.2.1 eN rfl⟩

/-- C8: splitting two documents of 2500 characters each with chunk_size 1000
and overlap 100 yields exactly 3 fragments per document (6 total); every
fragment text is a contiguous substring of its parent document's (enriched)
content, and consecutive fragments of the same document share exactly 100
characters at each boundary. -/
theorem c8_split_scenario (d1 d2 : Document)
    (h1 : d1.content.length = 2500) (h2 : d2.content.length = 2500) :
    (split_documents [d1, d2]).length = 6 ∧
    (splitText 1000 100 d1.content).length = 3 ∧
    (splitText 1000 100 d2.content).length = 3 ∧
    (∀ t ∈ splitText 1000 100 d1.content, ∃ l r, d1.content = l ++ t ++ r) ∧
    (∀ t ∈ splitText 1000 100 d2.content, ∃ l r, d2.content = l ++ t ++ r) ∧
    consecOverlap 100 (splitText 1000 100 d1.content) ∧
    consecOverlap 100 (splitText 1000 100 d2.content) := by
  obtain ⟨hl1, hsub1, hov1⟩ := split_scenario_one d1.content h1
  obtain ⟨hl2, hsub2, hov2⟩ := split_scenario_one d2.content h2
  refine ⟨?_, hl1, hl2, hsub1, hsub2, hov1, hov2⟩
  simp only [split_documents, List.length_append, List.length_map, List.length_nil]
  rw [hl1, hl2]

/-- C8, witness: two concrete 2500-character documents. -/
theorem c8_split_scenario_witness :
    ((List.replicate 2500 'a' : List Char).length = 2500) ∧
    ((split_documents [⟨List.replicate 2500 'a', {}⟩, ⟨List.replicate 2500 'a', {}⟩]).length = 6 ∧
      (splitText 1000 100 (List.replicate 2500 'a')).length = 3 ∧
      (splitText 1000 100 (List.replicate 2500 'a')).length = 3 ∧
      (∀ t ∈ splitText 1000 100 (List.replicate 2500 'a'),
        ∃ l r, (List.replicate 2500 'a' : List Char) = l ++ t ++ r) ∧
      (∀ t ∈ splitText 1000 100 (List.replicate 2500 'a'),
        ∃ l r, (List.replicate 2500 'a' : List Char) = l ++ t ++ r) ∧
      consecOverlap 100 (splitText 1000 100 (List.replicate 2500 'a')) ∧
      consecOverlap 100 (splitText 1000 100 (List.replicate 2500 'a'))) :=
  ⟨by rw [List.length_replicate],
   c8_split_scenario ⟨List.replicate 2500 'a', {}⟩ ⟨List.replicate 2500 'a', {}⟩
     (by rw [List.length_replicate]) (by rw [List.length_replicate])⟩

/-- C9: after every sequence of update_knowledge_base and query_rag calls
starting from the absent index, the index is either absent or non-empty,
and the entry count never decreases as further calls are appended — in
particular the size after two ingestions is at least the size after one. -/
theorem c9_index_invariant :
    (∀ calls : List KBCall, dbInv (calls.foldl stepCall none)) ∧
    (∀ pre suff : List KBCall,
        dbSize (pre.foldl stepCall none) ≤ dbSize ((pre ++ suff).foldl stepCall none)) := by
  constructor
  · intro calls
    exact foldCalls_inv calls none (Or.inl rfl)
  · intro pre suff
    rw [List.foldl_append]
    exact foldCalls_size suff (pre.foldl stepCall none)

/-- C10: splitting any sources string on commas yields at least one id, so
the per-source division is always defined; and when no parsed id names a
known adapter, update_knowledge_base returns the nothing-found message
with the index untouched instead of crashing. -/
theorem c10_sources_safe (srcs : List Char) :
    1 ≤ (splitComma srcs).length ∧
    ∀ (env : Env) (db : Option (List Fragment)) (tema : String) (mp : Int),
      (∀ s ∈ source_list_of srcs,
          pyLower s ≠ "arxiv".data ∧ pyLower s ≠ "semantic_scholar".data) →
      update_knowledge_base env db tema mp srcs =
        { db := db, reply := noPapersMsg srcs, sleeps := [], attempts := 0 } := by
  constructor
  · exact List.length_pos.mpr (splitComma_ne_nil srcs)
  · intro env db tema mp h
    exact nothing_found_of_search_empty env db tema mp srcs
      (search_all_sources_unknown env tema (max_per_source_of mp srcs) (source_list_of srcs) h)

/-- C10, witness: the empty sources string parses to one (unknown) id and
the update reports nothing found with the index untouched. -/
theorem c10_sources_safe_witness :
    1 ≤ (splitComma "".data).length ∧
    update_knowledge_base env1 none "t" 10 "".data =
      { db := none, reply := noPapersMsg "".data, sleeps := [], attempts := 0 } :=
  ⟨(c10_sources_safe "".data).1,
   (c10_sources_safe "".data).2 env1 none "t" 10 (by decide)⟩
